import Mathlib

/-!
Verification of the lookout-server monitoring engine against its
natural-language specification.

The definitions below are a shallow embedding of the Python source:

* `CacheEntry`, `findDueEndpoints`, `on_endpoint_updated`,
  `on_endpoint_deleted` embed the registry logic of
  `app/services/endpoint_scheduler.py` (`endpoint_cache`,
  `_find_due_endpoints`, the event hooks);
* `perform_http_check`, `check_endpoint_with_retry`, `save_check_result`
  embed the worker and prober logic of the same file;
* `handle_endpoint_check` embeds `app/services/notification_trigger.py`;
* `EmailState`, `cleanup_expired_cooldowns`, `get_next_cooldown`,
  `record_notification_and_start_cooldown` embed
  `app/services/outage_notification_service.py`;
* `HealthState`, `handle_success`, `handle_failure` embed
  `app/services/health_monitor.py`.

Python dicts holding optional keys are embedded as structures with
`Option` fields; a `none` field models an absent key, and the getter
functions apply the same defaults the source applies via `dict.get`.
Instants are modelled as natural-number seconds.
-/

namespace Lookout

/-- One value of `EndpointScheduler.endpoint_cache`: the effective endpoint
record plus the scheduled next-check instant.  Fields that the scheduler
reads through `dict.get` with a default are `Option`-valued; `none` models
the key being absent from the dict.  Request-shaping fields (url, method,
headers, body) are not modelled: the HTTP exchange itself is abstracted by
`HttpResult` below. -/
structure CacheEntry where
  name : Option String
  is_active : Option Bool
  next_check_time : Option Nat
  frequency_minutes : Option Nat
  consecutive_failures : Option Nat
  expected_status : Option Nat
  deriving Repr, DecidableEq

/-- `cache_entry.get('is_active', True)` -/
def CacheEntry.isActive (e : CacheEntry) : Bool :=
  e.is_active.getD true

/-- `cache_entry.get('next_check_time', 0)` -/
def CacheEntry.nextCheckTime (e : CacheEntry) : Nat :=
  e.next_check_time.getD 0

/-- `cache_entry.get('frequency_minutes', 5)` -/
def CacheEntry.frequencyMinutes (e : CacheEntry) : Nat :=
  e.frequency_minutes.getD 5

/-- `cache_entry.get('consecutive_failures', 0)` -/
def CacheEntry.consecutiveFailures (e : CacheEntry) : Nat :=
  e.consecutive_failures.getD 0

/-- `endpoint_config.get('expected_status', 200)` -/
def CacheEntry.expectedStatus (e : CacheEntry) : Nat :=
  e.expected_status.getD 200

/-- The in-memory registry `endpoint_cache`: an association list from
endpoint id to cache entry (Python dict keys are unique). -/
abbrev Registry := List (String × CacheEntry)

/-- Dictionary lookup `endpoint_cache.get(endpoint_id)`. -/
def regFind? (reg : Registry) (eid : String) : Option CacheEntry :=
  (reg.find? (fun p => p.1 == eid)).map (fun p => p.2)

/-- `EndpointScheduler._find_due_endpoints`: walk the cache; skip inactive
entries; for each active entry whose `next_check_time` has passed, emit
`(endpoint_id, next_check_time)` and advance the stored `next_check_time`
to `current_time + frequency_minutes * 60`.  Returns the due list together
with the mutated cache. -/
def findDueEndpoints (now : Nat) :
    Registry → List (String × Nat) × Registry
  | [] => ([], [])
  | (eid, e) :: rest =>
      let r := findDueEndpoints now rest
      if e.isActive then
        if e.nextCheckTime ≤ now then
          ((eid, e.nextCheckTime) :: r.1,
            (eid, { e with
              next_check_time := some (now + e.frequencyMinutes * 60) }) :: r.2)
        else (r.1, (eid, e) :: r.2)
      else (r.1, (eid, e) :: r.2)

/-- The condition under which `_find_due_endpoints` selects an entry. -/
def dueNow (now : Nat) (e : CacheEntry) : Bool :=
  e.isActive && decide (e.nextCheckTime ≤ now)

/-- The mutation `_find_due_endpoints` applies to a selected entry. -/
def advanceEntry (now : Nat) (e : CacheEntry) : CacheEntry :=
  { e with next_check_time := some (now + e.frequencyMinutes * 60) }

theorem findDueEndpoints_fst (now : Nat) (reg : Registry) :
    (findDueEndpoints now reg).1 =
      (reg.filter (fun p => dueNow now p.2)).map
        (fun p => (p.1, p.2.nextCheckTime)) := by
  induction reg with
  | nil => rfl
  | cons hd tl ih =>
      obtain ⟨eid, e⟩ := hd
      by_cases ha : e.isActive
      · by_cases hd : e.nextCheckTime ≤ now
        · simp [findDueEndpoints, dueNow, ha, hd, ih]
        · simp [findDueEndpoints, dueNow, ha, hd, ih]
      · simp [findDueEndpoints, dueNow, ha, ih]

theorem findDueEndpoints_snd (now : Nat) (reg : Registry) :
    (findDueEndpoints now reg).2 =
      reg.map (fun p =>
        if dueNow now p.2 then (p.1, advanceEntry now p.2) else p) := by
  induction reg with
  | nil => rfl
  | cons hd tl ih =>
      obtain ⟨eid, e⟩ := hd
      by_cases ha : e.isActive
      · by_cases hd : e.nextCheckTime ≤ now
        · simp [findDueEndpoints, dueNow, advanceEntry, ha, hd, ih]
        · simp [findDueEndpoints, dueNow, advanceEntry, ha, hd, ih]
      · simp [findDueEndpoints, dueNow, advanceEntry, ha, ih]

/-- Lookup through a key-preserving map of the association list. -/
theorem regFind?_map (reg : Registry) (eid : String)
    (g : String × CacheEntry → String × CacheEntry)
    (hg : ∀ p, (g p).1 = p.1) :
    regFind? (reg.map g) eid = ((reg.find? (fun p => p.1 == eid)).map g).map
      (fun p => p.2) := by
  induction reg with
  | nil => rfl
  | cons hd tl ih =>
      simp only [regFind?, List.map_cons, List.find?] at ih ⊢
      rw [hg hd]
      cases h : (hd.1 == eid) with
      | true => rfl
      | false => exact ih

/-! ## Registry event hooks -/

/-- A partial endpoint record handed to `on_endpoint_updated` by the REST
layer (`updated_data`).  A `some` field models the key being present in the
patch dict.  Only the fields the scheduler logic reads are modelled. -/
structure UpdatePatch where
  name : Option String := none
  is_active : Option Bool := none
  frequency_minutes : Option Nat := none
  consecutive_failures : Option Nat := none
  expected_status : Option Nat := none
  deriving Repr, DecidableEq

/-- `cache_entry.update(updated_data)`: a key present in the patch
overwrites the entry field, an absent key leaves it alone. -/
def updField {α : Type} (patchField entryField : Option α) : Option α :=
  match patchField with
  | some v => some v
  | none => entryField

/-- The dict-merge step of `EndpointScheduler.on_endpoint_updated`. -/
def updateEntry (e : CacheEntry) (p : UpdatePatch) : CacheEntry :=
  { name := updField p.name e.name,
    is_active := updField p.is_active e.is_active,
    next_check_time := e.next_check_time,
    frequency_minutes := updField p.frequency_minutes e.frequency_minutes,
    consecutive_failures :=
      updField p.consecutive_failures e.consecutive_failures,
    expected_status := updField p.expected_status e.expected_status }

/-- The mutation `on_endpoint_updated` performs on the found cache entry:
merge the patch, then, whenever the patch CONTAINS the key
`frequency_minutes`, recompute
`next_check_time = time.time() + frequency_minutes * 60`. -/
def applyUpdate (now : Nat) (p : UpdatePatch) (e : CacheEntry) :
    CacheEntry :=
  let e1 := updateEntry e p
  match p.frequency_minutes with
  | some f => { e1 with next_check_time := some (now + f * 60) }
  | none => e1

/-- In-place mutation of the dict at key `eid` (other keys untouched). -/
def updateAt (now : Nat) (eid : String) (p : UpdatePatch)
    (q : String × CacheEntry) : String × CacheEntry :=
  if q.1 == eid then (q.1, applyUpdate now p q.2) else q

/-- `EndpointScheduler.on_endpoint_updated`: if the id is unknown, warn and
return; otherwise mutate the cache entry per `applyUpdate`. -/
def on_endpoint_updated (now : Nat) (reg : Registry) (eid : String)
    (p : UpdatePatch) : Registry :=
  match regFind? reg eid with
  | none => reg
  | some _ => reg.map (updateAt now eid p)

/-- `EndpointScheduler.on_endpoint_deleted`: if the id is unknown, warn and
return; otherwise delete the cache entry. -/
def on_endpoint_deleted (reg : Registry) (eid : String) : Registry :=
  match regFind? reg eid with
  | none => reg
  | some _ => reg.eraseP (fun q => q.1 == eid)

/-! ## String containment, mirroring the Python `in` operator -/

/-- `listHasPref needle hay` is true when `needle` is an initial segment of
`hay`. -/
def listHasPref : List Char → List Char → Bool
  | [], _ => true
  | _ :: _, [] => false
  | n :: ns, h :: hs => n == h && listHasPref ns hs

/-- `listHasSub needle hay` is true when `needle` occurs contiguously
inside `hay`. -/
def listHasSub (needle : List Char) : List Char → Bool
  | [] => needle.isEmpty
  | h :: hs => listHasPref needle (h :: hs) || listHasSub needle hs

/-- The Python expression `needle in hay` on strings. -/
def strContains (hay needle : String) : Bool :=
  listHasSub needle.data hay.data

/-- The Python expression `s.lower()` (ASCII case folding; the markers the
scheduler compares against are ASCII). -/
def lowerString (s : String) : String :=
  String.mk (s.data.map Char.toLower)

/-! ## HTTP prober (`EndpointScheduler._perform_http_check`) -/

/-- What the HTTP exchange produced: a response with a status code, a
timeout (`asyncio.TimeoutError`), or any other exception carrying its
message text. -/
inductive HttpResult where
  | response (status : Nat)
  | timeout
  | excep (msg : String)
  deriving Repr, DecidableEq

/-- The dict returned by `_perform_http_check`.  `status_code := none`
models the key being absent from the dict (the timeout and exception
branches of the source do not set it). -/
structure CheckResult where
  success : Bool
  status_code : Option Nat
  response_time_ms : Nat
  error : Option String
  attempt : Nat
  retryable : Bool
  deriving Repr, DecidableEq

/-- The error substrings `_perform_http_check` treats as permanent
misconfiguration (checked against the lowercased error text). -/
def nonRetryableMarkers : List String :=
  ["name or service not known",
   "no address associated with hostname",
   "invalid url",
   "unsupported protocol"]

/-- `EndpointScheduler._perform_http_check`: on a response, succeed iff the
status equals the expected status; on timeout, fail with retryable true; on
any other exception, fail and mark non-retryable exactly when the
lowercased message contains one of the `nonRetryableMarkers`. -/
def perform_http_check (cfg : CacheEntry) (res : HttpResult)
    (attempt elapsed : Nat) : CheckResult :=
  match res with
  | .response status =>
      { success := status == cfg.expectedStatus,
        status_code := some status,
        response_time_ms := elapsed,
        error := none,
        attempt := attempt,
        retryable := true }
  | .timeout =>
      { success := false,
        status_code := none,
        response_time_ms := elapsed,
        error := some "Request timeout",
        attempt := attempt,
        retryable := true }
  | .excep msg =>
      { success := false,
        status_code := none,
        response_time_ms := elapsed,
        error := some msg,
        attempt := attempt,
        retryable :=
          !(nonRetryableMarkers.any (fun m => strContains (lowerString msg) m)) }

/-! ## Worker (`EndpointScheduler._check_endpoint_with_retry`) -/

/-- The observable steps `_check_endpoint_with_retry` performs: prober
invocations, the retry sleep, the persistence call, and (for reference) a
handoff to the notification coordinator. -/
inductive WorkerAction where
  | probe (attempt : Nat)
  | sleepFor (seconds : Nat)
  | save (eid : String) (r : CheckResult)
  | notifyCoordinator (user eid : String)
  deriving Repr, DecidableEq

/-- True exactly on a `notifyCoordinator` action. -/
def WorkerAction.isNotify : WorkerAction → Bool
  | .notifyCoordinator _ _ => true
  | _ => false

/-- `EndpointScheduler._check_endpoint_with_retry`: look the endpoint up in
the cache (silently discard on a miss), probe once, and if the outcome is
unsuccessful and retryable, sleep `retry_delay` seconds and probe exactly
once more; finally save the last outcome.  The two `HttpResult` arguments
are the exchanges the network would produce for attempt 1 and attempt 2,
with their elapsed milliseconds. -/
def check_endpoint_with_retry (retryDelay : Nat) (reg : Registry)
    (eid : String) (r1 r2 : HttpResult) (e1 e2 : Nat) :
    List WorkerAction :=
  match regFind? reg eid with
  | none => []
  | some cfg =>
      let result := perform_http_check cfg r1 1 e1
      if !result.success && result.retryable then
        [WorkerAction.probe 1, WorkerAction.sleepFor retryDelay,
         WorkerAction.probe 2,
         WorkerAction.save eid (perform_http_check cfg r2 2 e2)]
      else
        [WorkerAction.probe 1, WorkerAction.save eid result]

/-! ## Persistence of a check result
(`EndpointScheduler._save_check_result`) -/

/-- What the database interaction inside the `try` block of
`_save_check_result` did: completed, or raised an exception with the given
message text. -/
inductive DbOutcome where
  | ok
  | dbError (msg : String)
  deriving Repr, DecidableEq

/-- The post-state of `_save_check_result`: the registry after the call and
the error message passed to `logger.error`, if any. -/
structure SaveResult where
  registry : Registry
  loggedError : Option String
  deriving Repr, DecidableEq

/-- The constraint name `_save_check_result` looks for in the exception
text to recognize that the endpoint row was deleted. -/
def fkMarker : String := "check_results_endpoint_id_fkey"

/-- `EndpointScheduler._save_check_result`.  On success: the new
consecutive-failure count is 0 for a successful check, else the cached
count plus one, written back to the cache entry when present.  On an
exception whose text contains `fkMarker`: evict the endpoint from the
cache and return silently.  On any other exception: log the error and
return.  The function never raises. -/
def save_check_result (reg : Registry) (eid : String) (r : CheckResult)
    (db : DbOutcome) : SaveResult :=
  match db with
  | .ok =>
      let cf : Nat :=
        if r.success then 0
        else ((regFind? reg eid).map CacheEntry.consecutiveFailures).getD 0 + 1
      { registry :=
          match regFind? reg eid with
          | some _ =>
              reg.map (fun q =>
                if q.1 == eid then
                  (q.1, { q.2 with consecutive_failures := some cf })
                else q)
          | none => reg,
        loggedError := none }
  | .dbError msg =>
      if strContains msg fkMarker then
        { registry := reg.eraseP (fun q => q.1 == eid), loggedError := none }
      else
        { registry := reg, loggedError := some msg }

/-! ## Notification trigger (`NotificationTrigger.handle_endpoint_check`) -/

/-- The row `_get_endpoint_with_user_data` returns: the endpoint id joined
with its owning user via the workspace. -/
structure EndpointUserData where
  user_id : String
  consecutive_failures : Option Nat
  deriving Repr, DecidableEq

/-- The row `_get_user_notification_settings` returns. -/
structure UserNotificationSettings where
  email_notifications_enabled : Option Bool
  failure_threshold : Option Nat
  deriving Repr, DecidableEq

/-- An invocation of
`OutageNotificationService.handle_endpoint_failure(user_id, endpoint_id,
failure_threshold, consecutive_failures)`. -/
structure HandleFailureCall where
  user_id : String
  endpoint_id : String
  failure_threshold : Nat
  consecutive_failures : Nat
  deriving Repr, DecidableEq

/-- `NotificationTrigger.handle_endpoint_check`: ignore successes; look up
the endpoint with its user, then the user settings (each lookup may come
back empty); drop the event when notifications are disabled; invoke
`handle_endpoint_failure` exactly when the consecutive-failure count meets
the threshold.  Returns the call made, if any. -/
def handle_endpoint_check (eid : String) (success : Bool)
    (endpointData : Option EndpointUserData)
    (userSettings : Option UserNotificationSettings) :
    Option HandleFailureCall :=
  if success then none
  else
    match endpointData with
    | none => none
    | some ed =>
        match userSettings with
        | none => none
        | some us =>
            let consecutive := ed.consecutive_failures.getD 0
            let threshold := us.failure_threshold.getD 5
            let enabled := us.email_notifications_enabled.getD false
            if !enabled then none
            else if threshold ≤ consecutive then
              some ⟨ed.user_id, eid, threshold, consecutive⟩
            else none

/-! ## Outage notification state machine
(`app/services/outage_notification_service.py`) -/

/-- One row of the `global_email_state` table: the per-user notification
state.  `cooldown_expires_at := none` models a NULL column. -/
structure EmailState where
  buffer_active : Bool
  buffer_started_at : Option Nat
  failing_endpoint_ids : List String
  cooldown_level : Nat
  cooldown_expires_at : Option Nat
  deriving Repr, DecidableEq

/-- The row written by
`OutageNotificationService._reset_user_to_ready_state`: buffer closed and
emptied, `cooldown_level` set to 0, `cooldown_expires_at` set to NULL. -/
def resetReadyState : EmailState :=
  { buffer_active := false,
    buffer_started_at := none,
    failing_endpoint_ids := [],
    cooldown_level := 0,
    cooldown_expires_at := none }

/-- `OutageNotificationService._cleanup_expired_cooldowns`: every row whose
`cooldown_expires_at` is non-NULL and strictly before `now` is rewritten by
`_reset_user_to_ready_state`; other rows are untouched (the SQL filter
`lt(cooldown_expires_at, now)` never selects NULL). -/
def cleanup_expired_cooldowns (now : Nat)
    (states : List (String × EmailState)) : List (String × EmailState) :=
  states.map (fun p =>
    match p.2.cooldown_expires_at with
    | some t => if t < now then (p.1, resetReadyState) else p
    | none => p)

/-- `OutageNotificationService._get_next_cooldown`: the cooldown map
`{0: (1, 1), 1: (2, 2), 2: (3, 3), 3: (4, 5), 4: (1, 1)}` read with
`dict.get(current_level, (1, 1))`; the pair is (next level, hours). -/
def get_next_cooldown (current_level : Nat) : Nat × Nat :=
  match current_level with
  | 0 => (1, 1)
  | 1 => (2, 2)
  | 2 => (3, 3)
  | 3 => (4, 5)
  | 4 => (1, 1)
  | _ => (1, 1)

/-- `OutageNotificationService._record_notification_and_start_cooldown`:
after a successful send, close and empty the buffer, store the next
cooldown level, and set `cooldown_expires_at = now + hours` per
`get_next_cooldown` applied to the level the buffer row carried. -/
def record_notification_and_start_cooldown (s : EmailState) (now : Nat)
    (current_cooldown_level : Nat) : EmailState :=
  let next := get_next_cooldown current_cooldown_level
  { s with
    buffer_active := false,
    buffer_started_at := none,
    failing_endpoint_ids := [],
    cooldown_level := next.1,
    cooldown_expires_at := some (now + next.2 * 3600) }

/-! ## Health monitor (`app/services/health_monitor.py`) -/

/-- The mutable health fields of `SystemHealthMonitor` that the transition
logic reads and writes. -/
structure HealthState where
  is_system_healthy : Bool
  consecutive_failures : Nat
  consecutive_successes : Nat
  deriving Repr, DecidableEq

/-- The state `SystemHealthMonitor.__init__` establishes. -/
def initHealth : HealthState :=
  { is_system_healthy := true,
    consecutive_failures := 0,
    consecutive_successes := 0 }

/-- `SystemHealthMonitor._handle_success`: zero the failure counter, bump
the success counter, and when currently unhealthy and the success counter
has reached `success_threshold`, flip to healthy and zero the success
counter. -/
def handle_success (success_threshold : Nat) (s : HealthState) :
    HealthState :=
  let s1 : HealthState :=
    { s with
      consecutive_failures := 0,
      consecutive_successes := s.consecutive_successes + 1 }
  if s1.is_system_healthy = false then
    if success_threshold ≤ s1.consecutive_successes then
      { s1 with is_system_healthy := true, consecutive_successes := 0 }
    else s1
  else s1

/-- `SystemHealthMonitor._handle_failure`: zero the success counter, bump
the failure counter, and when currently healthy and the failure counter
has reached `failure_threshold`, flip to unhealthy. -/
def handle_failure (failure_threshold : Nat) (s : HealthState) :
    HealthState :=
  let s1 : HealthState :=
    { s with
      consecutive_successes := 0,
      consecutive_failures := s.consecutive_failures + 1 }
  if s1.is_system_healthy then
    if failure_threshold ≤ s1.consecutive_failures then
      { s1 with is_system_healthy := false }
    else s1
  else s1

/-- One completed invocation of `check_system_health` that actually ran its
subchecks: `ok` is whether all subchecks passed. -/
def health_step (ft st : Nat) (s : HealthState) (ok : Bool) : HealthState :=
  if ok then handle_success st s else handle_failure ft s

/-- The health state after a sequence of completed checks, starting from
the constructor state. -/
def run_health_checks (ft st : Nat) (checks : List Bool) : HealthState :=
  checks.foldl (health_step ft st) initHealth

/-- Default `FAILURE_THRESHOLD` from `app/core/config.py`. -/
def defaultFailureThreshold : Nat := 3

/-- Default `SUCCESS_THRESHOLD` from `app/core/config.py`. -/
def defaultSuccessThreshold : Nat := 3

/-! ## Shared helper lemmas -/

theorem updField_idem {α : Type} (a b : Option α) :
    updField a (updField a b) = updField a b := by
  cases a <;> rfl

theorem updateEntry_idem (e : CacheEntry) (p : UpdatePatch) :
    updateEntry (updateEntry e p) p = updateEntry e p := by
  simp [updateEntry, updField_idem]

theorem applyUpdate_idem (now : Nat) (p : UpdatePatch) (e : CacheEntry) :
    applyUpdate now p (applyUpdate now p e) = applyUpdate now p e := by
  cases hf : p.frequency_minutes with
  | none => simp [applyUpdate, hf, updateEntry_idem]
  | some f =>
      simp [applyUpdate, hf, updateEntry, updField_idem]

theorem updateAt_fst (now : Nat) (eid : String) (p : UpdatePatch)
    (q : String × CacheEntry) : (updateAt now eid p q).1 = q.1 := by
  unfold updateAt
  split <;> rfl

theorem updateAt_idem (now : Nat) (eid : String) (p : UpdatePatch)
    (q : String × CacheEntry) :
    updateAt now eid p (updateAt now eid p q) = updateAt now eid p q := by
  by_cases h : (q.1 == eid) = true <;>
    simp [updateAt, h, applyUpdate_idem]

/-! ## Concrete fixtures used by witnesses and counterexamples -/

/-- A representative cache entry (all keys present). -/
def cfgW : CacheEntry :=
  { name := some "api health",
    is_active := some true,
    next_check_time := some 0,
    frequency_minutes := some 5,
    consecutive_failures := some 0,
    expected_status := some 200 }

/-! ## Claims -/

/-- Claim C10: for an endpoint id absent from the registry,
`on_endpoint_updated` and `on_endpoint_deleted` return with the registry
mapping unchanged; in particular no entry is created for the unknown id.
(Both embeddings are total functions, matching the hooks returning
normally instead of raising.) -/
theorem c10_unknown_id_hooks_noop (now : Nat) (reg : Registry)
    (eid : String) (p : UpdatePatch) (h : regFind? reg eid = none) :
    on_endpoint_updated now reg eid p = reg ∧
      on_endpoint_deleted reg eid = reg := by
  refine ⟨?_, ?_⟩
  · unfold on_endpoint_updated
    rw [h]
  · unfold on_endpoint_deleted
    rw [h]

/-- Witness for C10 at a concrete one-entry registry and an id it does not
contain. -/
theorem c10_witness :
    on_endpoint_updated 50 [("a", cfgW)] "b" { is_active := some false } =
        [("a", cfgW)] ∧
      on_endpoint_deleted [("a", cfgW)] "b" = [("a", cfgW)] :=
  c10_unknown_id_hooks_noop 50 [("a", cfgW)] "b"
    { is_active := some false } (by decide)

/-- Next cooldown level as the claim tabulates it:
0 maps to 1, 1 to 2, 2 to 3, 3 to 4, 4 back to 1. -/
def specNextLevel : Nat → Nat
  | 0 => 1
  | 1 => 2
  | 2 => 3
  | 3 => 4
  | 4 => 1
  | _ => 0

/-- Cooldown duration in hours as the claim tabulates it:
levels 0, 1, 2, 3, 4 map to 1, 2, 3, 5, 1 hours. -/
def specDurationHours : Nat → Nat
  | 0 => 1
  | 1 => 2
  | 2 => 3
  | 3 => 5
  | 4 => 1
  | _ => 0

/-- Claim C4: a flush performed while the stored cooldown level is
`L ≤ 4` leaves the buffer closed and empty, stores the next level per the
cycle 0 to 1, 1 to 2, 2 to 3, 3 to 4, 4 to 1, and sets
`cooldown_expires_at` to now plus 1, 2, 3, 5 or 1 hours respectively, so
the added duration is always one of 1, 2, 3, 5 hours. -/
theorem c4_flush_cooldown_cycle (s : EmailState) (now : Nat)
    (h : s.cooldown_level ≤ 4) :
    (record_notification_and_start_cooldown s now
        s.cooldown_level).buffer_active = false ∧
    (record_notification_and_start_cooldown s now
        s.cooldown_level).failing_endpoint_ids = [] ∧
    (record_notification_and_start_cooldown s now
        s.cooldown_level).cooldown_level = specNextLevel s.cooldown_level ∧
    (record_notification_and_start_cooldown s now
        s.cooldown_level).cooldown_expires_at =
      some (now + specDurationHours s.cooldown_level * 3600) ∧
    specDurationHours s.cooldown_level ∈ ([1, 2, 3, 5] : List Nat) := by
  have hc : s.cooldown_level = 0 ∨ s.cooldown_level = 1 ∨
      s.cooldown_level = 2 ∨ s.cooldown_level = 3 ∨
      s.cooldown_level = 4 := by omega
  rcases hc with h0 | h0 | h0 | h0 | h0 <;>
    simp [record_notification_and_start_cooldown, get_next_cooldown,
      specNextLevel, specDurationHours, h0]

/-- Witness for C4 at level 3: the flush stores level 4 and a 5-hour
cooldown. -/
theorem c4_witness :
    (record_notification_and_start_cooldown
        { buffer_active := true, buffer_started_at := some 100,
          failing_endpoint_ids := ["e1"], cooldown_level := 3,
          cooldown_expires_at := none } 1000 3).cooldown_level =
      specNextLevel 3 ∧
    (record_notification_and_start_cooldown
        { buffer_active := true, buffer_started_at := some 100,
          failing_endpoint_ids := ["e1"], cooldown_level := 3,
          cooldown_expires_at := none } 1000 3).cooldown_expires_at =
      some (1000 + specDurationHours 3 * 3600) := by
  have h := c4_flush_cooldown_cycle
    { buffer_active := true, buffer_started_at := some 100,
      failing_endpoint_ids := ["e1"], cooldown_level := 3,
      cooldown_expires_at := none } 1000 (by decide)
  exact ⟨h.2.2.1, h.2.2.2.1⟩

/-- The state a user sits in after one outage email: cooldown level 1,
cooldown expiring at instant 3600. -/
def c2State : EmailState :=
  { buffer_active := false,
    buffer_started_at := none,
    failing_endpoint_ids := [],
    cooldown_level := 1,
    cooldown_expires_at := some 3600 }

/-- Claim C2 is refuted by the code: the cooldown-expiry tick rewrites the
row with `_reset_user_to_ready_state`, which stores `cooldown_level = 0`
rather than leaving the level unchanged.  At the next flush
`_get_next_cooldown 0` therefore yields a 1-hour cooldown again, where the
claimed retained level 1 would have yielded 2 hours. -/
theorem c2_cleanup_zeroes_level :
    cleanup_expired_cooldowns 7200 [("u1", c2State)] =
        [("u1", resetReadyState)] ∧
      c2State.cooldown_level = 1 ∧
      resetReadyState.cooldown_level = 0 ∧
      resetReadyState.cooldown_expires_at = none ∧
      (get_next_cooldown 0).2 = 1 ∧
      (get_next_cooldown 1).2 = 2 := by
  refine ⟨?_, rfl, rfl, rfl, rfl, rfl⟩
  rfl

/-- Claim C7 is refuted on the status-code clause: when no response is
received the outcome dict of `_perform_http_check` carries NO
`status_code` key (persisted as NULL), not the integer 0. -/
theorem c7_counterexample :
    (perform_http_check cfgW HttpResult.timeout 1 5).status_code = none ∧
      (perform_http_check cfgW HttpResult.timeout 1 5).status_code ≠
        some 0 := by
  refine ⟨rfl, ?_⟩
  decide

/-- Claim C7 as amended: with a response, `success = (status ==
expected_status)` and the status code is recorded; with no response
(timeout or exception), `success` is false, an error string is set, and
the status code is absent (NULL) rather than 0. -/
theorem c7_outcome_fields (cfg : CacheEntry) (status a e : Nat)
    (msg : String) :
    ((perform_http_check cfg (.response status) a e).success =
        (status == cfg.expectedStatus) ∧
      (perform_http_check cfg (.response status) a e).status_code =
        some status ∧
      (perform_http_check cfg (.response status) a e).error = none) ∧
    ((perform_http_check cfg .timeout a e).success = false ∧
      (perform_http_check cfg .timeout a e).status_code = none ∧
      (perform_http_check cfg .timeout a e).error =
        some "Request timeout") ∧
    ((perform_http_check cfg (.excep msg) a e).success = false ∧
      (perform_http_check cfg (.excep msg) a e).status_code = none ∧
      (perform_http_check cfg (.excep msg) a e).error = some msg) :=
  ⟨⟨rfl, rfl, rfl⟩, ⟨rfl, rfl, rfl⟩, ⟨rfl, rfl, rfl⟩⟩

/-- Claim C1 is refuted by the code: `_check_endpoint_with_retry` never
hands any outcome to the notification layer (its action trace never
contains a coordinator handoff, whatever the probe results), even though
`NotificationTrigger.handle_endpoint_check` — which is invoked nowhere —
would forward exactly the qualifying failures: at the failing input
(failed check, 5 consecutive failures, threshold 5, email enabled) it
would call `handle_endpoint_failure`. -/
theorem c1_worker_never_notifies :
    (∀ rd reg eid r1 r2 e1 e2,
        (check_endpoint_with_retry rd reg eid r1 r2 e1 e2).countP
          WorkerAction.isNotify = 0) ∧
      handle_endpoint_check "ep1" false
          (some { user_id := "user1", consecutive_failures := some 5 })
          (some { email_notifications_enabled := some true,
                  failure_threshold := some 5 }) =
        some { user_id := "user1", endpoint_id := "ep1",
               failure_threshold := 5, consecutive_failures := 5 } := by
  refine ⟨?_, rfl⟩
  intro rd reg eid r1 r2 e1 e2
  unfold check_endpoint_with_retry
  cases regFind? reg eid with
  | none => rfl
  | some cfg =>
      dsimp only
      split <;>
        simp [List.countP_cons, WorkerAction.isNotify]

/-- A concrete failed outcome used by the C9 witness. -/
def resW : CheckResult :=
  { success := false,
    status_code := some 503,
    response_time_ms := 40,
    error := none,
    attempt := 2,
    retryable := true }

/-- Claim C9: when persisting raises an error whose text carries the
foreign-key constraint name, the worker evicts the endpoint from the
registry and returns with no error logged; any other persistence error is
logged, leaves the registry as it was, and still returns (the embedding is
a total function: the worker loop is not terminated). -/
theorem c9_persistence_errors (reg : Registry) (eid : String)
    (r : CheckResult) (msg : String) :
    (strContains msg fkMarker = true →
      save_check_result reg eid r (.dbError msg) =
        { registry := reg.eraseP (fun q => q.1 == eid),
          loggedError := none }) ∧
    (strContains msg fkMarker = false →
      save_check_result reg eid r (.dbError msg) =
        { registry := reg, loggedError := some msg }) := by
  constructor <;> intro h <;> simp [save_check_result, h]

/-- Witness for C9: a foreign-key text evicts the entry silently; an
unrelated error is logged and evicts nothing. -/
theorem c9_witness :
    save_check_result [("a", cfgW)] "a" resW
        (.dbError "violates check_results_endpoint_id_fkey") =
      { registry := [], loggedError := none } ∧
    save_check_result [("a", cfgW)] "a" resW
        (.dbError "connection refused") =
      { registry := [("a", cfgW)], loggedError := some "connection refused" } := by
  constructor
  · rw [(c9_persistence_errors [("a", cfgW)] "a" resW
      "violates check_results_endpoint_id_fkey").1 (by decide)]
    decide
  · rw [(c9_persistence_errors [("a", cfgW)] "a" resW
      "connection refused").2 (by decide)]

/-- Claim C6: when the first attempt is unsuccessful and retryable the
worker sleeps `retry_delay` seconds and probes exactly once more (attempt
2), then saves; otherwise it saves after the single attempt.  An exception
outcome is non-retryable exactly when its lowercased text contains one of
the four misconfiguration markers, and a timeout is retryable. -/
theorem c6_retry_policy (rd : Nat) (cfg : CacheEntry) (reg : Registry)
    (eid : String) (r1 r2 : HttpResult) (e1 e2 a e : Nat) (msg : String)
    (hreg : regFind? reg eid = some cfg) :
    ((perform_http_check cfg r1 1 e1).success = false →
      (perform_http_check cfg r1 1 e1).retryable = true →
      check_endpoint_with_retry rd reg eid r1 r2 e1 e2 =
        [WorkerAction.probe 1, WorkerAction.sleepFor rd,
         WorkerAction.probe 2,
         WorkerAction.save eid (perform_http_check cfg r2 2 e2)]) ∧
    ((perform_http_check cfg r1 1 e1).success = true ∨
        (perform_http_check cfg r1 1 e1).retryable = false →
      check_endpoint_with_retry rd reg eid r1 r2 e1 e2 =
        [WorkerAction.probe 1,
         WorkerAction.save eid (perform_http_check cfg r1 1 e1)]) ∧
    ((perform_http_check cfg (.excep msg) a e).retryable = false ↔
      ∃ m ∈ nonRetryableMarkers,
        strContains (lowerString msg) m = true) ∧
    (perform_http_check cfg .timeout a e).retryable = true := by
  refine ⟨?_, ?_, ?_, rfl⟩
  · intro h1 h2
    unfold check_endpoint_with_retry
    rw [hreg]
    simp [h1, h2]
  · intro h1
    unfold check_endpoint_with_retry
    rw [hreg]
    rcases h1 with h1 | h1 <;> simp [h1]
  · simp [perform_http_check, List.any_eq_true]

/-- Witness for C6: a connection reset is retryable, so the worker sleeps
and probes a second time; the second attempt succeeds with a 200. -/
theorem c6_witness :
    check_endpoint_with_retry 10 [("a", cfgW)] "a"
        (.excep "Connection reset by peer") (.response 200) 20 120 =
      [WorkerAction.probe 1, WorkerAction.sleepFor 10,
       WorkerAction.probe 2,
       WorkerAction.save "a"
         { success := true, status_code := some 200,
           response_time_ms := 120, error := none, attempt := 2,
           retryable := true }] := by
  have h := (c6_retry_policy 10 cfgW [("a", cfgW)] "a"
    (.excep "Connection reset by peer") (.response 200) 20 120 1 1 "x"
    (by decide)).1 (by decide) (by decide)
  rw [h]
  decide

theorem applyUpdate_next_of_none (now : Nat) (p : UpdatePatch)
    (e : CacheEntry) (h : p.frequency_minutes = none) :
    (applyUpdate now p e).nextCheckTime = e.nextCheckTime := by
  simp [applyUpdate, h, updateEntry, CacheEntry.nextCheckTime]

theorem applyUpdate_next_of_some (now : Nat) (p : UpdatePatch)
    (e : CacheEntry) (f : Nat) (h : p.frequency_minutes = some f) :
    (applyUpdate now p e).nextCheckTime = now + f * 60 := by
  simp [applyUpdate, h, CacheEntry.nextCheckTime]

theorem applyUpdate_cf_of_none (now : Nat) (p : UpdatePatch)
    (e : CacheEntry) (h : p.consecutive_failures = none) :
    (applyUpdate now p e).consecutiveFailures = e.consecutiveFailures := by
  cases hf : p.frequency_minutes <;>
    simp [applyUpdate, hf, updateEntry, updField, h,
      CacheEntry.consecutiveFailures]

/-- An entry whose stored frequency is 5 minutes and whose next check is
due at instant 100. -/
def c8Entry : CacheEntry :=
  { name := some "ep",
    is_active := some true,
    next_check_time := some 100,
    frequency_minutes := some 5,
    consecutive_failures := some 2,
    expected_status := some 200 }

/-- A patch that carries `frequency_minutes` with the very value the entry
already stores. -/
def c8Patch : UpdatePatch := { frequency_minutes := some 5 }

/-- Claim C8 is refuted by the code: applying `on_endpoint_updated` twice
at instant 200 with a patch whose frequency equals the current frequency
(5 minutes, unchanged) still rewrites `next_check_time` from 100 to
200 + 300 = 500, because the source recomputes whenever the key
`frequency_minutes` is present in the patch, not when its value changed. -/
theorem c8_counterexample :
    c8Patch.frequency_minutes = c8Entry.frequency_minutes ∧
      (regFind? [("a", c8Entry)] "a").map CacheEntry.nextCheckTime =
        some 100 ∧
      (regFind? (on_endpoint_updated 200
          (on_endpoint_updated 200 [("a", c8Entry)] "a" c8Patch)
          "a" c8Patch) "a").map CacheEntry.nextCheckTime = some 500 := by
  refine ⟨rfl, rfl, ?_⟩
  decide

/-- Claim C8 as amended: `on_endpoint_updated` at a fixed instant is
idempotent; `next_check_time` is untouched exactly when the patch omits
the `frequency_minutes` key, and whenever the patch carries
`frequency_minutes` (changed or not) it is recomputed to
`now + frequency * 60`; the consecutive-failure counter is untouched
unless the patch sets it. -/
theorem c8_update_semantics (now : Nat) (reg : Registry) (eid : String)
    (p : UpdatePatch) :
    (on_endpoint_updated now (on_endpoint_updated now reg eid p) eid p =
        on_endpoint_updated now reg eid p) ∧
    (p.frequency_minutes = none → ∀ eid2,
      (regFind? (on_endpoint_updated now reg eid p) eid2).map
          CacheEntry.nextCheckTime =
        (regFind? reg eid2).map CacheEntry.nextCheckTime) ∧
    (∀ f, p.frequency_minutes = some f → ∀ e,
      regFind? reg eid = some e →
      (regFind? (on_endpoint_updated now reg eid p) eid).map
          CacheEntry.nextCheckTime = some (now + f * 60)) ∧
    (p.consecutive_failures = none → ∀ eid2,
      (regFind? (on_endpoint_updated now reg eid p) eid2).map
          CacheEntry.consecutiveFailures =
        (regFind? reg eid2).map CacheEntry.consecutiveFailures) := by
  cases hfind : regFind? reg eid with
  | none =>
      have h1 : on_endpoint_updated now reg eid p = reg := by
        unfold on_endpoint_updated
        rw [hfind]
      refine ⟨?_, ?_, ?_, ?_⟩
      · rw [h1]
        exact h1
      · intro _ eid2
        rw [h1]
      · intro f _ e he
        cases he
      · intro _ eid2
        rw [h1]
  | some e0 =>
      have h1 : on_endpoint_updated now reg eid p =
          reg.map (updateAt now eid p) := by
        unfold on_endpoint_updated
        rw [hfind]
      have hmap : ∀ eid2, regFind? (reg.map (updateAt now eid p)) eid2 =
          ((reg.find? (fun q => q.1 == eid2)).map
            (updateAt now eid p)).map (fun q => q.2) :=
        fun eid2 => regFind?_map reg eid2 _ (updateAt_fst now eid p)
      refine ⟨?_, ?_, ?_, ?_⟩
      · rw [h1]
        have h2 : regFind? (reg.map (updateAt now eid p)) eid =
            ((reg.find? (fun q => q.1 == eid)).map
              (updateAt now eid p)).map (fun q => q.2) := hmap eid
        cases hopt : reg.find? (fun q => q.1 == eid) with
        | none =>
            unfold regFind? at hfind
            rw [hopt] at hfind
            cases hfind
        | some q0 =>
            have h3 : regFind? (reg.map (updateAt now eid p)) eid =
                some ((updateAt now eid p q0).2) := by
              rw [h2, hopt]
              rfl
            unfold on_endpoint_updated
            rw [h3, List.map_map]
            exact List.map_congr_left
              (fun q _ => updateAt_idem now eid p q)
      · intro hf eid2
        rw [h1, hmap eid2]
        cases hopt : reg.find? (fun q => q.1 == eid2) with
        | none => simp [regFind?, hopt]
        | some q0 =>
            simp only [Option.map_some, regFind?, hopt]
            show some ((updateAt now eid p q0).2.nextCheckTime) =
              some (q0.2.nextCheckTime)
            unfold updateAt
            by_cases hq : (q0.1 == eid) = true
            · simp only [hq, if_true]
              rw [applyUpdate_next_of_none now p q0.2 hf]
            · simp [hq]
      · intro f hf e he
        rw [h1, hmap eid]
        cases hopt : reg.find? (fun q => q.1 == eid) with
        | none =>
            unfold regFind? at hfind
            rw [hopt] at hfind
            cases hfind
        | some q0 =>
            have hq : (q0.1 == eid) = true := by
              simpa using List.find?_some hopt
            show some ((updateAt now eid p q0).2.nextCheckTime) =
              some (now + f * 60)
            unfold updateAt
            rw [hq]
            simp only [if_true]
            rw [applyUpdate_next_of_some now p q0.2 f hf]
      · intro hcf eid2
        rw [h1, hmap eid2]
        cases hopt : reg.find? (fun q => q.1 == eid2) with
        | none => simp [regFind?, hopt]
        | some q0 =>
            simp only [Option.map_some, regFind?, hopt]
            show some ((updateAt now eid p q0).2.consecutiveFailures) =
              some (q0.2.consecutiveFailures)
            unfold updateAt
            by_cases hq : (q0.1 == eid) = true
            · simp only [hq, if_true]
              rw [applyUpdate_cf_of_none now p q0.2 hcf]
            · simp [hq]

/-- Witness for C8 as amended: a patch that omits frequency leaves the
next check time at 100; the double update with the frequency-carrying
patch equals the single update. -/
theorem c8_witness :
    (regFind? (on_endpoint_updated 200 [("a", c8Entry)] "a"
        { consecutive_failures := some 0 }) "a").map
      CacheEntry.nextCheckTime = some 100 ∧
    on_endpoint_updated 200
        (on_endpoint_updated 200 [("a", c8Entry)] "a" c8Patch)
        "a" c8Patch =
      on_endpoint_updated 200 [("a", c8Entry)] "a" c8Patch := by
  constructor
  · rw [(c8_update_semantics 200 [("a", c8Entry)] "a"
      { consecutive_failures := some 0 }).2.1 rfl "a"]
    decide
  · exact (c8_update_semantics 200 [("a", c8Entry)] "a" c8Patch).1

/-- Invariant maintained by the health transitions: while healthy the
failure counter sits below the failure threshold, while unhealthy the
success counter sits below the success threshold. -/
def HealthInv (ft st : Nat) (s : HealthState) : Prop :=
  (s.is_system_healthy = true → s.consecutive_failures < ft) ∧
    (s.is_system_healthy = false → s.consecutive_successes < st)

theorem healthInv_step (ft st : Nat) (hft : 1 ≤ ft) (hst : 1 ≤ st)
    (s : HealthState) (h : HealthInv ft st s) (c : Bool) :
    HealthInv ft st (health_step ft st s c) := by
  obtain ⟨hH, hU⟩ := h
  cases c with
  | true =>
      show HealthInv ft st (handle_success st s)
      cases hb : s.is_system_healthy with
      | true =>
          refine ⟨?_, ?_⟩
          · intro _
            simp [handle_success, hb]
            omega
          · intro hx
            simp [handle_success, hb] at hx
      | false =>
          by_cases hth : st ≤ s.consecutive_successes + 1
          · refine ⟨?_, ?_⟩
            · intro _
              simp [handle_success, hb, hth]
              omega
            · intro hx
              simp [handle_success, hb, hth] at hx
          · refine ⟨?_, ?_⟩
            · intro hx
              simp [handle_success, hb, hth] at hx
            · intro _
              simp [handle_success, hb, hth]
              omega
  | false =>
      show HealthInv ft st (handle_failure ft s)
      cases hb : s.is_system_healthy with
      | false =>
          refine ⟨?_, ?_⟩
          · intro hx
            simp [handle_failure, hb] at hx
          · intro _
            simp [handle_failure, hb]
            omega
      | true =>
          have hlt := hH hb
          by_cases hth : ft ≤ s.consecutive_failures + 1
          · refine ⟨?_, ?_⟩
            · intro hx
              simp [handle_failure, hb, hth] at hx
            · intro _
              simp [handle_failure, hb, hth]
              omega
          · refine ⟨?_, ?_⟩
            · intro _
              simp [handle_failure, hb, hth]
              omega
            · intro hx
              simp [handle_failure, hb, hth] at hx

theorem healthInv_run (ft st : Nat) (hft : 1 ≤ ft) (hst : 1 ≤ st)
    (checks : List Bool) :
    HealthInv ft st (run_health_checks ft st checks) := by
  have hinit : HealthInv ft st initHealth := by
    constructor <;> intro <;> simp [initHealth] <;> omega
  have hfold : ∀ (l : List Bool) (s : HealthState), HealthInv ft st s →
      HealthInv ft st (l.foldl (health_step ft st) s) := by
    intro l
    induction l with
    | nil => intro s hs; exact hs
    | cons c cs ih =>
        intro s hs
        exact ih _ (healthInv_step ft st hft hst s hs c)
  exact hfold checks initHealth hinit

/-- Claim C5: the monitor starts Healthy with zero counters; the default
thresholds are 3 and 3; from any reachable Healthy state a failed check
increments `consecutive_failures`, zeroes `consecutive_successes`, and
flips to Unhealthy exactly when the failure counter reaches
`failure_threshold`; from any reachable Unhealthy state a successful
check zeroes `consecutive_failures`, flips back to Healthy exactly when
the success counter reaches `success_threshold`, and otherwise increments
`consecutive_successes`. -/
theorem c5_health_state_machine (ft st : Nat) (checks : List Bool)
    (hft : 1 ≤ ft) (hst : 1 ≤ st) (s : HealthState)
    (hs : s = run_health_checks ft st checks) :
    (initHealth.is_system_healthy = true ∧
      initHealth.consecutive_failures = 0 ∧
      initHealth.consecutive_successes = 0) ∧
    (defaultFailureThreshold = 3 ∧ defaultSuccessThreshold = 3) ∧
    (s.is_system_healthy = true →
      (handle_failure ft s).consecutive_failures =
          s.consecutive_failures + 1 ∧
        (handle_failure ft s).consecutive_successes = 0 ∧
        ((handle_failure ft s).is_system_healthy = false ↔
          s.consecutive_failures + 1 = ft)) ∧
    (s.is_system_healthy = false →
      (handle_success st s).consecutive_failures = 0 ∧
        ((handle_success st s).is_system_healthy = true ↔
          s.consecutive_successes + 1 = st) ∧
        ((handle_success st s).is_system_healthy = false →
          (handle_success st s).consecutive_successes =
            s.consecutive_successes + 1)) := by
  have hinv : HealthInv ft st s := by
    rw [hs]
    exact healthInv_run ft st hft hst checks
  refine ⟨⟨rfl, rfl, rfl⟩, ⟨rfl, rfl⟩, ?_, ?_⟩
  · intro hb
    have hlt := hinv.1 hb
    unfold handle_failure
    by_cases hth : ft ≤ s.consecutive_failures + 1 <;>
      simp [hb, hth] <;> omega
  · intro hb
    have hlt := hinv.2 hb
    unfold handle_success
    by_cases hth : st ≤ s.consecutive_successes + 1 <;>
      simp [hb, hth] <;> omega

/-- Witness for C5: with both thresholds 3, after two failed checks a
third failure flips the monitor to Unhealthy, and the failure counter
reads 3. -/
theorem c5_witness :
    HealthState.is_system_healthy
        (handle_failure 3 (run_health_checks 3 3 [false, false])) =
      false ∧
    HealthState.consecutive_failures
        (handle_failure 3 (run_health_checks 3 3 [false, false])) = 3 := by
  have h := c5_health_state_machine 3 3 [false, false] (by decide)
    (by decide) (run_health_checks 3 3 [false, false]) rfl
  have h3 := h.2.2.1 (by decide)
  constructor
  · exact h3.2.2.mpr (by decide)
  · rw [h3.1]
    decide

theorem advanceEntry_next (now : Nat) (e : CacheEntry) :
    (advanceEntry now e).nextCheckTime = now + e.frequencyMinutes * 60 := by
  simp [advanceEntry, CacheEntry.nextCheckTime]

theorem advanceEntry_freq (now : Nat) (e : CacheEntry) :
    (advanceEntry now e).frequencyMinutes = e.frequencyMinutes := rfl

theorem advanceEntry_active (now : Nat) (e : CacheEntry) :
    (advanceEntry now e).isActive = e.isActive := rfl

/-- A due entry found by `_find_due_endpoints` is present in the
post-scan cache with its `next_check_time` advanced. -/
theorem regFind?_findDue (now : Nat) (reg : Registry) (eid : String)
    (e : CacheEntry) (hfind : regFind? reg eid = some e)
    (ha : e.isActive = true) (hd : e.nextCheckTime ≤ now) :
    regFind? (findDueEndpoints now reg).2 eid =
      some (advanceEntry now e) := by
  rw [findDueEndpoints_snd]
  have hg : ∀ p : String × CacheEntry,
      ((fun p => if dueNow now p.2 then (p.1, advanceEntry now p.2) else p)
        p).1 = p.1 := by
    intro p
    by_cases h : dueNow now p.2 <;> simp [h]
  rw [regFind?_map reg eid _ hg]
  cases hopt : reg.find? (fun q => q.1 == eid) with
  | none =>
      unfold regFind? at hfind
      rw [hopt] at hfind
      cases hfind
  | some q0 =>
      unfold regFind? at hfind
      rw [hopt] at hfind
      have hq2 : q0.2 = e := by
        simpa using hfind
      have hdue : dueNow now q0.2 = true := by
        rw [hq2]
        simp [dueNow, ha, hd]
      rw [hq2] at hdue
      simp [hq2, hdue]

/-- Claim C3: a registry scan at `now1` returns exactly the active entries
whose `next_check_time` has passed, carrying their old scheduled instants;
it advances each returned entry to `now1 + frequency * 60` and leaves the
others untouched; and an entry returned by a scan and again by a later
scan has a strictly larger stored `next_check_time` after each scan
(given the schema-guaranteed frequency of at least one minute). -/
theorem c3_snapshot_due (now1 now2 : Nat) (reg : Registry) :
    ((findDueEndpoints now1 reg).1 =
      (reg.filter (fun p => dueNow now1 p.2)).map
        (fun p => (p.1, p.2.nextCheckTime))) ∧
    ((findDueEndpoints now1 reg).2 =
      reg.map (fun p =>
        if dueNow now1 p.2 then (p.1, advanceEntry now1 p.2) else p)) ∧
    (∀ eid e, regFind? reg eid = some e → e.isActive = true →
      e.nextCheckTime ≤ now1 → 1 ≤ e.frequencyMinutes →
      regFind? (findDueEndpoints now1 reg).2 eid =
          some (advanceEntry now1 e) ∧
        e.nextCheckTime < (advanceEntry now1 e).nextCheckTime ∧
        ((advanceEntry now1 e).nextCheckTime ≤ now2 →
          regFind? (findDueEndpoints now2
              (findDueEndpoints now1 reg).2).2 eid =
              some (advanceEntry now2 (advanceEntry now1 e)) ∧
            (advanceEntry now1 e).nextCheckTime <
              (advanceEntry now2 (advanceEntry now1 e)).nextCheckTime)) := by
  refine ⟨findDueEndpoints_fst now1 reg, findDueEndpoints_snd now1 reg, ?_⟩
  intro eid e hfind ha hd hf
  have h1 : regFind? (findDueEndpoints now1 reg).2 eid =
      some (advanceEntry now1 e) := regFind?_findDue now1 reg eid e hfind ha hd
  refine ⟨h1, ?_, ?_⟩
  · rw [advanceEntry_next]
    omega
  · intro h2
    have ha2 : (advanceEntry now1 e).isActive = true := by
      rw [advanceEntry_active]
      exact ha
    refine ⟨regFind?_findDue now2 (findDueEndpoints now1 reg).2 eid
      (advanceEntry now1 e) h1 ha2 h2, ?_⟩
    have e1 := advanceEntry_next now1 e
    have e2 := advanceEntry_next now2 (advanceEntry now1 e)
    have e3 := advanceEntry_freq now1 e
    rw [e1] at h2
    rw [e1, e2, e3]
    omega

/-- Witness for C3: a single active entry due at instant 0 is advanced to
300 by a scan at 100, and a second scan at 500 advances it strictly
further, to 800. -/
theorem c3_witness :
    regFind? (findDueEndpoints 100 [("a", cfgW)]).2 "a" =
        some (advanceEntry 100 cfgW) ∧
      cfgW.nextCheckTime < (advanceEntry 100 cfgW).nextCheckTime ∧
      regFind? (findDueEndpoints 500
          (findDueEndpoints 100 [("a", cfgW)]).2).2 "a" =
        some (advanceEntry 500 (advanceEntry 100 cfgW)) ∧
      (advanceEntry 100 cfgW).nextCheckTime <
        (advanceEntry 500 (advanceEntry 100 cfgW)).nextCheckTime := by
  have h := (c3_snapshot_due 100 500 [("a", cfgW)]).2.2 "a" cfgW
    (by decide) rfl (by decide) (by decide)
  have h2 := h.2.2 (by decide)
  exact ⟨h.1, h.2.1, h2.1, h2.2⟩

end Lookout
